import Mathlib

/-! Shallow embedding of the Ashen Veil narrative bot (`src/bot.py`).

The per-chat session state, the button-dispatch state machine
(`on_button`), the scene render routines, the message-edit animation
protocol (`animate_frames`), the template NPC strategy (`npc_reply`),
the `/start` and `/talk` command handlers, and the JSON session
persistence (`save_sessions` / `load_sessions`) are translated into
executable Lean definitions.  Outbound transport calls are modelled as
an emitted list of render directives; the transport's accept/reject
choice for an in-place edit is an oracle parameter.  Stateful Python
code becomes explicit state passing; fallible code returns `Option`. -/

namespace AshenVeil

/-- A value stored in a session's `flags` dict (`Dict[str, Any]`; the
code only ever stores booleans and strings). -/
inductive FlagValue where
  | bool (b : Bool)
  | str (s : String)
  deriving DecidableEq, Repr

/-- Python truthiness of an optional flag value, as used by
`sess.flags.get("revived_lila") or sess.flags.get("lila_hidden")`. -/
def truthy : Option FlagValue → Bool
  | none => false
  | some (.bool b) => b
  | some (.str s) => !(s = "")

/-- Python dict assignment `d[k] = v`: overwrite in place if the key is
present, else append. -/
def dictSet : List (String × FlagValue) → String → FlagValue → List (String × FlagValue)
  | [], k, v => [(k, v)]
  | (k', v') :: rest, k, v =>
    if k' = k then (k, v) :: rest else (k', v') :: dictSet rest k v

/-- Python `d.get(k)`: the value at key `k`, if present. -/
def dictGet (d : List (String × FlagValue)) (k : String) : Option FlagValue :=
  (d.find? (fun p => p.1 = k)).map Prod.snd

/-- The act constants `ACT_1, ..., THE_END = range(6)`. -/
def ACT_1 : Nat := 0

/-- Act 2 (see `ACT_1`). -/
def ACT_2 : Nat := 1

/-- Act 3 (see `ACT_1`). -/
def ACT_3 : Nat := 2

/-- Act 4 (see `ACT_1`). -/
def ACT_4 : Nat := 3

/-- Act 5 (see `ACT_1`). -/
def ACT_5 : Nat := 4

/-- The terminal act value (see `ACT_1`). -/
def THE_END : Nat := 5

/-- The `Session` dataclass: one per chat. -/
structure Session where
  chat_id : Int
  owner_id : Int
  act : Nat := ACT_1
  step : Nat := 0
  inventory : List String := []
  evidence : List String := []
  flags : List (String × FlagValue) := []
  pinned_msg_id : Option Int := none
  deriving DecidableEq, Repr

/-- A fresh session, as built by `Session(chat_id=..., owner_id=...)`
with the dataclass field defaults. -/
def Session.fresh (chatId ownerId : Int) : Session :=
  { chat_id := chatId, owner_id := ownerId }

/-- The `MEDIA` placeholder-URL table. -/
def MEDIA (k : String) : String :=
  match k with
  | "rain_gif" => "https://files.catbox.moe/5t0o3x.gif"
  | "death_cert" => "https://files.catbox.moe/1wk2nq.jpg"
  | "newspaper" => "https://files.catbox.moe/9h9n9r.jpg"
  | "hallway" => "https://files.catbox.moe/d0g5qv.jpg"
  | "drip_audio" => "https://files.catbox.moe/b7o3pn.mp3"
  | "bar" => "https://files.catbox.moe/6w2l6l.jpg"
  | "bodybag" => "https://files.catbox.moe/3b7p2z.jpg"
  | "morgue_interior" => "https://files.catbox.moe/abcd01.jpg"
  | "toe_tag" => "https://files.catbox.moe/toetag.jpg"
  | "flood_map" => "https://files.catbox.moe/floodmap.jpg"
  | "archivist_portrait" => "https://files.catbox.moe/archivist.jpg"
  | "flashlight_gif" => "https://files.catbox.moe/flashlight.gif"
  | "heartbeat_mp3" => "https://files.catbox.moe/heartbeat.mp3"
  | "static_audio" => "https://files.catbox.moe/static.mp3"
  | "final_clip" => "https://files.catbox.moe/finalvideo.mp4"
  | _ => ""

/-- One outbound render directive: what a scene routine asks the
transport to do.  `anim` is one `animate_frames` call (or the inline
send-then-edit loops, which follow the same protocol); `editNotice` is
an edit of the clicked callback message. -/
inductive Directive where
  | text (s : String)
  | photo (url : String) (caption : Option String)
  | audio (url : String) (caption : Option String)
  | video (url : String) (caption : Option String)
  | anim (frames : List String)
  | buttons (prompt : String) (choices : List (String × String))
  | editNotice (s : String)
  deriving DecidableEq, Repr

/-- Whether a directive is a video send. -/
def Directive.isVideo : Directive → Bool
  | .video _ _ => true
  | _ => false

/-- `act1_opening`: the opening scene's render script. -/
def act1_opening : List Directive :=
  [ .anim [ "🌧 *W  E  L  C  _  M  E   T O   C R E S T F A L L*",
            "🌧 *The rain tastes like salt…*",
            "🌧 *You’ve been gone 14 years.*" ],
    .photo (MEDIA "death_cert") (some "*Tomorrow.* Your name. Signed in a dead hand."),
    .buttons "Where do you go first?"
      [("🔍 Inspect the package", "a1_pkg"), ("🏛 Town hall", "a1_hall"), ("⚓ Docks", "a1_docks")],
    .photo (MEDIA "newspaper") (some "*LOCAL RESIDENT LAID TO REST* — dated tomorrow.") ]

/-- `act2_fracture`: the act-2 scene's render script. -/
def act2_fracture : List Directive :=
  [ .text "Crestfall sleeps with one eye open.\nEvery window reflects something that isn’t there.\nThe streets feel stretched… like time’s been pulled thin.",
    .buttons "Where to begin?"
      [("🏚 Old home", "a2_home"), ("📂 Police archives", "a2_arch"), ("🌲 Forest clearing", "a2_forest")] ]

/-- `act3_investigate`: the act-3 scene's render script. -/
def act3_investigate : List Directive :=
  [ .anim ["⛈ *The storm hasn’t stopped…*", "🧵 *You’re being threaded somewhere.*"],
    .buttons "Interrogations — who do you confront?"
      [("🥃 Merrick (bar)", "a3_merrick"), ("📖 Archivist (archives)", "a3_archivist"), ("📞 Call the unknown number", "a3_call")] ]

/-- `act4_collapse`: the act-4 scene's render script. -/
def act4_collapse : List Directive :=
  [ .anim [ "[03:12] She was already dead when you found her.",
            "[02:56] You can still save her.",
            "[03:08] Why is there blood on your hands?" ],
    .text "*The investigation isn’t about the fire. It’s about who lit the match.*",
    .text "And every version says it was *you*.",
    .buttons "Pre-finale — choose your approach:"
      [("🕰 Break the cycle", "a4_break"), ("🔥 Let it burn", "a4_burn"), ("🩸 Hunt your other self", "a4_hunt")] ]

/-- `act5_finale`: the finale scene's render script. -/
def act5_finale : List Directive :=
  [ .anim ["\n\nThe match is already lit.", "The room inhales.", "Silence. Then heat."],
    .buttons "Final choice — the consequence will echo:"
      [("👧 Save the girl", "end_save"), ("🪞 Break the veil", "end_veil"), ("🔥 Let it burn", "end_burn")] ]

/-- `morgue_sequence`: the morgue arc's render script. -/
def morgue_sequence : List Directive :=
  [ .text "You slip through the morgue door. The air tastes of iron and old paper.",
    .photo (MEDIA "morgue_interior") (some "Fluorescent lights stutter above a row of metal drawers."),
    .anim [ "🔦 *Flashlight on: corridor. Rows and rows of drawers.*",
            "🔦 *Flashlight: a toe tag flutters under a sheet — name blurred.*",
            "🔦 *The beam finds a small yellow raincoat, folded beside a cold tray.*" ],
    .audio (MEDIA "heartbeat_mp3") (some "A distant heartbeat — is it yours?"),
    .anim [ "TOE TAG: [ █████████ ]",
            "TOE TAG: [ E.  G R A Y ]",
            "TOE TAG: [ L I L A  G R A Y ]" ],
    .buttons "The tag says Lila Gray. You can try to revive, call for help, or quietly take evidence."
      [("🔁 Attempt revival", "morg_revive"), ("📢 Call for help", "morg_call"), ("📸 Photograph quietly", "morg_photo")] ]

/-- `flood_cover_sequence`: the flood arc's render script. -/
def flood_cover_sequence : List Directive :=
  [ .text "You find a stack of waterlogged rescue maps in a locked cabinet.",
    .photo (MEDIA "flood_map") (some "An old map with routes circled and one symbol repeated — a black veil emblem."),
    .anim [ "Map annotation: *Rescue route A — CLEAR*",
            "Map annotation: *Rescue route B — DIVERTED*",
            "Map annotation: *Official: \"Flood response — see addendum 11\" — but addendum missing.*" ],
    .text "A corner of the page has been burned methodically — someone tried to hide a signature.",
    .buttons "You can photocopy and leak these maps, keep them for the archives, or burn them to protect someone."
      [("🖨 Leak copies (public)", "flood_leak"), ("🗄 Store in archive (quiet)", "flood_archive"), ("🔥 Burn to protect", "flood_burn")] ]

/-- `archivist_betrayal_sequence`: the archivist arc's render script. -/
def archivist_betrayal_sequence : List Directive :=
  [ .photo (MEDIA "archivist_portrait") (some "The Archivist removes their glasses. Their eyes are clearer than you'd expect."),
    .text "'I have been arranging the files for years,' they whisper. 'I only rearranged what had to be hidden.'",
    .anim [ "Archivist: 'You shouldn't dig further.'",
            "Archivist: 'You should stop. You will only hurt yourself.'" ],
    .text "_System: restoring archive snapshot..._",
    .text "_System: archive restored._",
    .text "Archivist: 'We promised to keep you safe. We also promised the town survived.'",
    .buttons "Archivist reveals they helped cover the flood response. Choose how to react:"
      [("⚖️ Confront and demand truth", "arch_confront"), ("🧭 Secretly record them", "arch_record"), ("💔 Walk away silently", "arch_leave")] ]

/-- The fallback notice of the button dispatcher's last branch. -/
def fallback_notice : String := "…the world rearranges its punctuation."

/-- The `end_save` animation frames of the mercy branch (flags record
that Lila was revived or hidden). -/
def mercy_frames : List String :=
  [ "👧 *You hold Lila as the world frays.*",
    "👧 *She coughs. The timeline shutters — then chooses mercy.*" ]

/-- The `end_save` animation frames of the empty-handed branch. -/
def smoke_frames : List String :=
  [ "👧 *You reach for her, hands find only smoke.*",
    "👧 *There is a name on the lip of the flame.*" ]

/-- The bonus final-video directive of the mercy branch. -/
def final_video : Directive :=
  .video (MEDIA "final_clip") (some "You leave a mark no one can name.")

/-- `on_button`, after the session lookup: given the session and the
callback token `data`, the mutated session and the emitted render
directives, following the handler's if-chain in source order.  A total
function: no token can make it fail. -/
def on_button (sess : Session) (data : String) : Session × List Directive :=
  if data = "a1_pkg" then
    ({ sess with flags := dictSet sess.flags "heard_cassette" (.bool true), act := ACT_2 },
     [.text "The cassette crackles: 'Find the girl. Don’t trust anyone. Not even me.'"] ++ act2_fracture)
  else if data = "a1_hall" then
    ({ sess with flags := dictSet sess.flags "met_archivist" (.bool true), act := ACT_2 },
     [.text "The Archivist’s eyes are clouded. 'People who come back don’t leave the same way.'"] ++ act2_fracture)
  else if data = "a1_docks" then
    ({ sess with flags := dictSet sess.flags "met_merrick" (.bool true), act := ACT_2 },
     [.text "Merrick smells of gasoline and old rain. 'You were lucky once,' he says."] ++ act2_fracture)
  else if data = "a2_home" then
    ({ sess with evidence := sess.evidence ++ ["locked_room"], act := ACT_3 },
     [.text "Your old bedroom is locked from the inside. The handle is warm."] ++ act3_investigate)
  else if data = "a2_arch" then
    ({ sess with evidence := sess.evidence ++ ["file_evelyn"], act := ACT_3 },
     [.text "FILE #03 — Evelyn Marks, Missing. Note in margin: NOT AN ACCIDENT. SAME AS 1992."] ++ act3_investigate)
  else if data = "a2_forest" then
    ({ sess with evidence := sess.evidence ++ ["forest_disturbance"], act := ACT_3 },
     [.text "The ground is soft. Something stirs beneath it."] ++ act3_investigate)
  else if data = "a3_merrick" then
    ({ sess with flags := dictSet sess.flags "merrick_photo" (.bool true) },
     [ .photo (MEDIA "bar") (some "Merrick: 'You don’t remember the fire, do you?'\nHe slides a half-burnt photo across the table."),
       .text "In the scorched photo, a small figure in a yellow raincoat stands beside you.",
       .buttons "Do you:" [("→ Go to the morgue (investigate)", "goto_morgue"), ("→ Check archives", "a3_archivist")] ])
  else if data = "a3_archivist" then
    ({ sess with flags := dictSet sess.flags "archive_tomorrow" (.bool true) },
     [ .text "Archivist: 'Some pages rearrange themselves when you aren’t looking.'",
       .buttons "Do you:" [("→ Press them for answers", "arch_press"), ("→ Search the morgue", "goto_morgue"), ("→ Call the number", "a3_call")] ])
  else if data = "a3_call" then
    ({ sess with flags := dictSet sess.flags "mystery_call" (.bool true) },
     [ .text "'Get her out before the siren. They’ll bury the evidence in the flood.' The line dies.",
       .buttons "Immediate options:" [("→ Morgue", "goto_morgue"), ("→ Flood maps", "goto_flood")] ])
  else if data = "goto_morgue" then
    (sess, morgue_sequence)
  else if data = "morg_revive" then
    ({ sess with flags := dictSet sess.flags "revived_lila" (.bool true),
                 evidence := sess.evidence ++ ["lila_alive"] },
     [ .anim [ "🔁 *You slap cold water across her face.*",
               "🔁 *Her fingers twitch. The monitor blinks.*",
               "🔁 *A cough—then silence. She remembers you.*" ],
       .text "Lila: 'You came back.' Her voice is a brittle thing.",
       .buttons "Choices:" [("→ Hide her and flee", "morg_hide"), ("→ Confront Archivist with proof", "morg_confront_arch")] ])
  else if data = "morg_call" then
    ({ sess with evidence := sess.evidence ++ ["guard_radio"] },
     [ .text "You shout into the corridor. No one answers, but a guard's radio crackles distant: '—evacuation route B: diverted—'.",
       .buttons "Do you:" [("→ Investigate Flood maps", "goto_flood"), ("→ Return quietly", "a3_archivist")] ])
  else if data = "morg_photo" then
    ({ sess with evidence := sess.evidence ++ ["lila_photo"] },
     [ .text "You take a photograph of the tag and the raincoat. It will be evidence if you survive to show it.",
       .buttons "What next?" [("→ Save and continue", "goto_flood"), ("→ Hide and run", "morg_hide")] ])
  else if data = "morg_hide" then
    ({ sess with flags := dictSet sess.flags "lila_hidden" (.bool true), act := ACT_4 },
     [ .anim [ "🕶 *You wrap the coat and slip her into a satchel.*",
               "🕶 *You feel the weight of futures in the straps.*" ],
       .text "You managed to hide Lila. For now." ] ++ act4_collapse)
  else if data = "morg_confront_arch" then
    ({ sess with flags := dictSet sess.flags "confront_with_lila" (.bool true) },
     [ .text "You march to the archives with a living girl folded into your coat. The Archivist freezes when you produce her." ]
       ++ archivist_betrayal_sequence)
  else if data = "goto_flood" then
    (sess, flood_cover_sequence)
  else if data = "flood_leak" then
    ({ sess with flags := dictSet sess.flags "leaked_maps" (.bool true), act := ACT_4 },
     [ .anim [ "🖨 *You photocopy the maps and distribute them to the web.*",
               "🖨 *Two accounts take the files and disappear.*" ],
       .text "News picks up the leak. The town trembles. Some names change in public records." ] ++ act4_collapse)
  else if data = "flood_archive" then
    ({ sess with flags := dictSet sess.flags "kept_maps" (.bool true), act := ACT_4 },
     [ .text "You tuck the maps into the archivist's private drawer. The truth remains a private coal." ] ++ act4_collapse)
  else if data = "flood_burn" then
    ({ sess with flags := dictSet sess.flags "burned_maps" (.bool true), act := ACT_4 },
     [ .anim ["🔥 *You burn the maps.*", "🔥 *The smoke tastes like promises.*"],
       .text "You burned the route that might have saved them. Your hands smell like ash." ] ++ act4_collapse)
  else if data = "arch_press" then
    (sess, archivist_betrayal_sequence)
  else if data = "arch_confront" then
    ({ sess with flags := dictSet sess.flags "arch_betrayal" (.bool true) },
     [ .text "You press the Archivist for names. Their face finally breaks.",
       .anim [ "Archivist: 'We made deals.'",
               "Archivist: 'To keep the town, we buried certain truths.'",
               "Archivist: 'We buried your family first.'" ],
       .buttons "Next:" [("→ Expose to public", "arch_expose"), ("→ Record secretly", "arch_record"), ("→ Walk away", "arch_leave")] ])
  else if data = "arch_record" then
    ({ sess with flags := dictSet sess.flags "arch_recorded" (.bool true), act := ACT_4 },
     [ .text "You secretly record them. The Archivist smiles sadly — they expected it.",
       .text "Archivist: 'You always thought proof would heal you.'" ] ++ act4_collapse)
  else if data = "arch_leave" then
    ({ sess with flags := dictSet sess.flags "arch_left" (.bool true), act := ACT_4 },
     [ .text "You turn away. In the silence the town rearranges its chairs." ] ++ act4_collapse)
  else if data = "arch_expose" then
    ({ sess with flags := dictSet sess.flags "arch_exposed" (.bool true), act := ACT_4 },
     [ .anim [ "📣 *You publish the Archivist's confession.*",
               "📣 *A noise like a century cracking answers loose.*" ],
       .text "Profiles in town shift as people learn to remember everything." ] ++ act4_collapse)
  else if data = "a4_break" then
    ({ sess with flags := dictSet sess.flags "route" (.str "break"), act := ACT_5 },
     [ .anim [ "🕰 *You fold the timeline like wet paper.*",
               "🕰 *Some names snap free, others stick.*" ] ]
       ++ (if truthy (dictGet sess.flags "lila_hidden") || truthy (dictGet sess.flags "revived_lila") then
             [Directive.text "You use Lila's presence as the anchor to pull time open."]
           else [])
       ++ act5_finale)
  else if data = "a4_burn" then
    ({ sess with flags := dictSet sess.flags "route" (.str "burn"), act := ACT_5 },
     [.anim ["🔥 *You step into the heat.*", "🔥 *Ash falls like slow rain.*"]] ++ act5_finale)
  else if data = "a4_hunt" then
    ({ sess with flags := dictSet sess.flags "route" (.str "hunt"), act := ACT_5 },
     [.anim ["🩸 *You hunt your other self across mirrors.*", "🩸 *At each reflection, a name slips.*"]] ++ act5_finale)
  else if data = "end_save" then
    ({ sess with act := THE_END },
     (if truthy (dictGet sess.flags "revived_lila") || truthy (dictGet sess.flags "lila_hidden") then
        [ .anim mercy_frames,
          .text "You saved her. The world forgets you kindly; you become a faded photograph in people's memories.",
          final_video ]
      else
        [ .anim smoke_frames,
          .text "You tried. The town keeps its secret. You keep the memory." ])
       ++ [.text "\n[GAME OVER] — *Saved, forgotten, eternal.*"])
  else if data = "end_veil" then
    ({ sess with act := THE_END },
     [ .anim ["🪞 *The veil rips.*", "🪞 *Everything remembers.*", "🪞 *A terrible, beautiful quiet follows.*"],
       .text "The town wakes to remember every loss. No one sleeps easily again.",
       .text "\n[GAME OVER] — *Truth without peace.*" ])
  else if data = "end_burn" then
    ({ sess with act := THE_END },
     [ .anim ["🔥 *You let it burn.*", "🔥 *Secrets cook until they are bones.*"],
       .text "You keep your name. Others will have to answer later.",
       .text "\n[GAME OVER] — *Survivor's quiet.*" ])
  else
    (sess, [.editNotice fallback_notice])

/-- The dispatcher's closed token vocabulary: the tokens with a
dedicated branch in `on_button`, in branch order. -/
def knownTokens : List String :=
  [ "a1_pkg", "a1_hall", "a1_docks",
    "a2_home", "a2_arch", "a2_forest",
    "a3_merrick", "a3_archivist", "a3_call",
    "goto_morgue", "morg_revive", "morg_call", "morg_photo", "morg_hide", "morg_confront_arch",
    "goto_flood", "flood_leak", "flood_archive", "flood_burn",
    "arch_press", "arch_confront", "arch_record", "arch_leave", "arch_expose",
    "a4_break", "a4_burn", "a4_hunt",
    "end_save", "end_veil", "end_burn" ]

/-- The three ending tokens offered by `act5_finale`. -/
def endingTokens : List String := ["end_save", "end_veil", "end_burn"]

/-- The tokens whose buttons the story graph can offer while the
session's `act` has the given value: the act-1 entry choices at
`ACT_1`, the act-2 choices at `ACT_2`, the whole act-3 arc web
(morgue, flood, archivist) at `ACT_3` (those handlers leave `act`
unchanged until an arc exit sets `ACT_4`), the act-4 route choices at
`ACT_4`, and the ending choices at `ACT_5`. -/
def tokensForAct : Nat → List String
  | 0 => ["a1_pkg", "a1_hall", "a1_docks"]
  | 1 => ["a2_home", "a2_arch", "a2_forest"]
  | 2 => [ "a3_merrick", "a3_archivist", "a3_call",
           "goto_morgue", "morg_revive", "morg_call", "morg_photo", "morg_hide", "morg_confront_arch",
           "goto_flood", "flood_leak", "flood_archive", "flood_burn",
           "arch_press", "arch_confront", "arch_record", "arch_leave", "arch_expose" ]
  | 3 => ["a4_break", "a4_burn", "a4_hunt"]
  | 4 => ["end_save", "end_veil", "end_burn"]
  | _ => []

/-- Whether `t` is an action token the transition graph can offer at
the session's current position. -/
def validForB (s : Session) (t : String) : Bool :=
  decide (t ∈ tokensForAct s.act)

/-- Dispatch a whole sequence of button tokens. -/
def runTokens (s : Session) : List String → Session
  | [] => s
  | t :: ts => runTokens (on_button s t).1 ts

/-- Whether a token sequence follows the transition graph from `s`:
each token is valid at the state it is dispatched in. -/
def validTraceB (s : Session) : List String → Bool
  | [] => true
  | t :: ts => validForB s t && validTraceB (on_button s t).1 ts

/-! ### Session table and the `/start` and `/talk` commands -/

/-- The in-memory session table `SESSIONS` (a Python dict keyed by
chat id, modelled as an association list with distinct keys). -/
abbrev Table := List (Int × Session)

/-- Python dict assignment `SESSIONS[k] = v`. -/
def tableSet : Table → Int → Session → Table
  | [], k, v => [(k, v)]
  | (k', v') :: rest, k, v =>
    if k' = k then (k, v) :: rest else (k', v') :: tableSet rest k v

/-- Python `SESSIONS.get(k)`. -/
def tableGet (tbl : Table) (k : Int) : Option Session :=
  (tbl.find? (fun p => p.1 = k)).map Prod.snd

/-- `cmd_start`: build a fresh `Session` for the chat, overwrite the
table entry, greet, render the opening scene. -/
def cmd_start (tbl : Table) (chatId userId : Int) (firstName : String) :
    Table × List Directive :=
  (tableSet tbl chatId (Session.fresh chatId userId),
   [.text ("Welcome, " ++ firstName ++ ".")] ++ act1_opening)

/-- Python `str.title()` on a word-by-word model: uppercase a letter
that starts an alphabetic run, lowercase the rest. -/
def pyTitleAux : List Char → Bool → List Char
  | [], _ => []
  | c :: cs, prevAlpha =>
    (if prevAlpha then c.toLower else c.toUpper) :: pyTitleAux cs c.isAlpha

/-- Python `str.title()`. -/
def pyTitle (s : String) : String := String.mk (pyTitleAux s.data false)

/-! ### Template NPC strategy (`npc_reply`, rule-based fallback) -/

/-- The mystery-bucket reply pool. -/
def mystery_lines : List String :=
  [ "The town keeps maps of lies in its drawers.",
    "Ask the Archivist — every paper is a riddle.",
    "Sometimes the answer is a name you don't know you remember." ]

/-- The comfort-bucket reply pool. -/
def comfort_lines : List String :=
  [ "Stay with me. We'll breathe together until dawn.",
    "I can feel the rain on the other side of the glass. It's colder there.",
    "We choose people over truths when we're afraid." ]

/-- The atmospheric-bucket reply pool. -/
def atmos_lines : List String :=
  [ "I dreamed of the chapel last night. It had no roof but kept singing.",
    "You move like someone who knows the final line but not the first word.",
    "If you listen carefully, the town will tell you what it wants to forget." ]

/-- The interrogative keyword class. -/
def interrogative_words : List String := ["where", "who", "why", "how", "when", "what"]

/-- The distress keyword class. -/
def distress_words : List String := ["save", "help", "please", "can't", "wont", "won't"]

/-- Python `str.strip()` (ASCII whitespace model). -/
def pyStrip (cs : List Char) : List Char :=
  ((cs.dropWhile Char.isWhitespace).reverse.dropWhile Char.isWhitespace).reverse

/-- Python `str.lower()` (ASCII model: `Char.toLower`). -/
def pyLower (cs : List Char) : List Char := cs.map Char.toLower

/-- Python substring containment `needle in hay`. -/
def containsSub (hay needle : List Char) : Bool := decide (needle <:+: hay)

/-- The `low` value `npc_reply` classifies: the player utterance
stripped, then lowercased. -/
def npc_low (playerText : String) : List Char := pyLower (pyStrip playerText.data)

/-- The reply pool `npc_reply`'s rule-based fallback draws from:
interrogative keywords first, then distress keywords, else the
atmospheric pool. -/
def npc_bucket (playerText : String) : List String :=
  if interrogative_words.any (fun w => containsSub (npc_low playerText) w.data) then mystery_lines
  else if distress_words.any (fun w => containsSub (npc_low playerText) w.data) then comfort_lines
  else atmos_lines

/-- `npc_reply` (rule-based branch): `random.choice` over the selected
pool, with the random draw an oracle index. -/
def npc_reply (choice : Nat) (playerText : String) : String :=
  (npc_bucket playerText).getD (choice % (npc_bucket playerText).length) ""

/-- A `/talk` invocation's visible outcome. -/
inductive TalkReply where
  | noSession
  | usage
  | npcLine (line : String)
  deriving DecidableEq, Repr

/-- The `/talk` usage string. -/
def usage_text : String :=
  "Usage: /talk <npc> <message>\nExample: /talk archivist tell me about the maps"

/-- `cmd_talk`: session check, then argument-count check, then one
NPC line prefixed with the capitalized NPC name. -/
def cmd_talk (sess : Option Session) (args : List String) (choice : Nat) : TalkReply :=
  match sess with
  | none => .noSession
  | some _ =>
    if args.length < 2 then .usage
    else
      let npc := args.headD ""
      let msg := " ".intercalate args.tail
      .npcLine (pyTitle npc ++ ": " ++ npc_reply choice msg)

/-! ### Animation engine (`animate_frames`) -/

/-- One displayed text state: which message showed it, at what model
time (seconds since the call started), and whether it appeared by
in-place edit (`isEdit`) or as a newly sent message. -/
structure DisplayEvent where
  msgId : Nat
  time : ℚ
  text : String
  isEdit : Bool
  deriving DecidableEq, Repr

/-- The edit loop of `animate_frames` over the remaining frames:
sleep `beat`, try the in-place edit of message `cur` (the transport
oracle `editOk` decides attempt `idx`); on rejection send the frame as
a new message (id `next`) and make it the edit target. -/
def animate_loop (editOk : Nat → Bool) (beat : ℚ) :
    List String → Nat → Nat → Nat → ℚ → List DisplayEvent
  | [], _, _, _, _ => []
  | f :: fs, idx, cur, next, t =>
    let t2 := t + beat
    if editOk idx then
      { msgId := cur, time := t2, text := f, isEdit := true }
        :: animate_loop editOk beat fs (idx + 1) cur next t2
    else
      { msgId := next, time := t2, text := f, isEdit := false }
        :: animate_loop editOk beat fs (idx + 1) next (next + 1) t2

/-- `animate_frames`: an empty frame list degrades to one "..."
message; otherwise send the first frame, then run the edit loop.
Total: no transport outcome makes it raise. -/
def animate_frames (editOk : Nat → Bool) (frames : List String) (beat : ℚ) :
    List DisplayEvent :=
  match frames with
  | [] => [{ msgId := 0, time := 0, text := "...", isEdit := false }]
  | f :: fs =>
    { msgId := 0, time := 0, text := f, isEdit := false }
      :: animate_loop editOk beat fs 0 0 1 0

/-! ### Persistence (`Session.to_dict` / `Session.from_dict`,
`save_sessions` / `load_sessions`)

The JSON document is modelled shallowly: each session serializes to a
record of optional fields (a missing dict key is `none`), and the
store maps stringified chat ids to such records, as `json.dump` turns
the table's int keys into their decimal strings and `load_sessions`
parses them back with `int(k)`. -/

/-- The JSON object `Session.to_dict` writes for one session: each
field optional, a missing key modelled as `none`. -/
structure SessionDict where
  chat_id : Option Int := none
  owner_id : Option Int := none
  act : Option Nat := none
  step : Option Nat := none
  inventory : Option (List String) := none
  evidence : Option (List String) := none
  flags : Option (List (String × FlagValue)) := none
  pinned_msg_id : Option (Option Int) := none
  deriving DecidableEq, Repr

/-- `Session.to_dict` (via `dataclasses.asdict`): every field present. -/
def Session.to_dict (s : Session) : SessionDict :=
  { chat_id := some s.chat_id, owner_id := some s.owner_id,
    act := some s.act, step := some s.step,
    inventory := some s.inventory, evidence := some s.evidence,
    flags := some s.flags, pinned_msg_id := some s.pinned_msg_id }

/-- `Session.from_dict`: `chat_id` and `owner_id` are mandatory
(`d["..."]`, a `KeyError` modelled as `none`); the rest fall back to
the defaults via `d.get(...)`. -/
def Session.from_dict (d : SessionDict) : Option Session :=
  match d.chat_id, d.owner_id with
  | some c, some o =>
    some { chat_id := c, owner_id := o,
           act := d.act.getD ACT_1, step := d.step.getD 0,
           inventory := d.inventory.getD [], evidence := d.evidence.getD [],
           flags := d.flags.getD [], pinned_msg_id := d.pinned_msg_id.getD none }
  | _, _ => none

/-- Worker for `natDigits`, structurally recursive on a fuel bound so
the kernel can evaluate it (`fuel ≥ n` always suffices). -/
def natDigitsAux : Nat → Nat → List Nat
  | 0, n => [n % 10]
  | fuel + 1, n => if n < 10 then [n] else natDigitsAux fuel (n / 10) ++ [n % 10]

/-- The decimal digits of a natural number, most significant first
(the digit sequence of Python `str(n)`). -/
def natDigits (n : Nat) : List Nat := natDigitsAux n n

/-- The numeric value of a most-significant-first digit list. -/
def natFromDigits (ds : List Nat) : Nat :=
  ds.foldl (fun a d => a * 10 + d) 0

/-- The character of one decimal digit. -/
def digitChar (d : Nat) : Char :=
  match d with
  | 0 => '0' | 1 => '1' | 2 => '2' | 3 => '3' | 4 => '4'
  | 5 => '5' | 6 => '6' | 7 => '7' | 8 => '8' | 9 => '9'
  | _ => '?'

/-- The decimal digit of one character, if it is a digit (code
points 48 through 57). -/
def charDigit (c : Char) : Option Nat :=
  if 48 ≤ c.toNat ∧ c.toNat ≤ 57 then some (c.toNat - 48) else none

/-- Python `str(n)` for a natural number. -/
def natToStr (n : Nat) : String := String.mk ((natDigits n).map digitChar)

/-- Python `str(i)` for an int (the JSON object key `json.dump`
writes for an int dict key). -/
def intToStr (i : Int) : String :=
  if i < 0 then String.mk ('-' :: (natDigits i.natAbs).map digitChar) else natToStr i.toNat

/-- One step of decimal parsing: shift the accumulator, fail on a
non-digit. -/
def parseStep (acc : Option Nat) (c : Char) : Option Nat :=
  match acc, charDigit c with
  | some a, some d => some (a * 10 + d)
  | _, _ => none

/-- Parse a digit string (Python `int(s)` on an unsigned body;
failure on the empty string or a non-digit). -/
def parseNat (cs : List Char) : Option Nat :=
  if cs.isEmpty then none else cs.foldl parseStep (some 0)

/-- Python `int(s)` (sign handling as used on `str(int)` keys;
failure modelled as `none`). -/
def strToInt (s : String) : Option Int :=
  match s.data with
  | [] => none
  | c :: rest =>
    if c = '-' then (parseNat rest).map (fun n => -(n : Int))
    else (parseNat (c :: rest)).map (fun n => (n : Int))

/-- The persisted store layout: stringified chat id to session dict,
in table order. -/
abbrev Stored := List (String × SessionDict)

/-- `save_sessions`: serialize the whole table (the file write's
possible failure is swallowed and leaves no trace in the model's
state). -/
def save_sessions (tbl : Table) : Stored :=
  tbl.map (fun kv => (intToStr kv.1, Session.to_dict kv.2))

/-- What `load_sessions` finds at `SESSION_STORE`: no file, a file
whose contents fail to read or parse as JSON, or a parsed document. -/
inductive StoreState where
  | missing
  | unreadable
  | parsed (data : Stored)

/-- The repopulation loop of `load_sessions`: entries in document
order; a failing `Session.from_dict` or `int(k)` raises and aborts
the loop (the exception is caught by the surrounding handler), leaving
the partially filled table. -/
def load_entries : Stored → Table → Table
  | [], acc => acc
  | (k, d) :: rest, acc =>
    match strToInt k, Session.from_dict d with
    | some ck, some sess => load_entries rest (tableSet acc ck sess)
    | _, _ => acc

/-- `load_sessions`: a missing store file returns early and an
unreadable one fails before `SESSIONS.clear()`, so both leave the
table untouched; a parsed document clears the table and repopulates
it.  All failures are caught: the caller never sees an exception. -/
def load_sessions (fs : StoreState) (tbl : Table) : Table :=
  match fs with
  | .missing => tbl
  | .unreadable => tbl
  | .parsed data => load_entries data []

/-! ## Theorems -/

/-- A token outside the dispatcher's vocabulary falls through every
branch to the fallback notice, leaving the session untouched. -/
theorem on_button_unknown (s : Session) (data : String) (h : data ∉ knownTokens) :
    on_button s data = (s, [Directive.editNotice fallback_notice]) := by
  simp only [knownTokens, List.mem_cons, List.not_mem_nil, or_false, not_or] at h
  obtain ⟨h1, h2, h3, h4, h5, h6, h7, h8, h9, h10, h11, h12, h13, h14, h15,
          h16, h17, h18, h19, h20, h21, h22, h23, h24, h25, h26, h27, h28, h29, h30⟩ := h
  simp only [on_button, if_neg h1, if_neg h2, if_neg h3, if_neg h4, if_neg h5, if_neg h6,
    if_neg h7, if_neg h8, if_neg h9, if_neg h10, if_neg h11, if_neg h12, if_neg h13,
    if_neg h14, if_neg h15, if_neg h16, if_neg h17, if_neg h18, if_neg h19, if_neg h20,
    if_neg h21, if_neg h22, if_neg h23, if_neg h24, if_neg h25, if_neg h26, if_neg h27,
    if_neg h28, if_neg h29, if_neg h30]

/-- A graph-valid token never decreases `act`. -/
theorem act_monotone_step (s : Session) (t : String) (h : validForB s t = true) :
    s.act ≤ (on_button s t).1.act := by
  unfold validForB at h
  rw [decide_eq_true_eq] at h
  have hact : s.act = 0 ∨ s.act = 1 ∨ s.act = 2 ∨ s.act = 3 ∨ s.act = 4 ∨ ∃ m, s.act = m + 5 := by
    rcases Nat.lt_or_ge s.act 5 with h5 | h5
    · omega
    · exact Or.inr (Or.inr (Or.inr (Or.inr (Or.inr ⟨s.act - 5, by omega⟩))))
  rcases hact with h0 | h0 | h0 | h0 | h0 | ⟨m, h0⟩ <;> rw [h0] at h <;>
    simp only [tokensForAct, List.mem_cons, List.not_mem_nil, or_false] at h
  · rcases h with rfl | rfl | rfl <;>
      simp [on_button, h0, ACT_2, ACT_3, ACT_4, ACT_5, THE_END]
  · rcases h with rfl | rfl | rfl <;>
      simp [on_button, h0, ACT_2, ACT_3, ACT_4, ACT_5, THE_END]
  · rcases h with rfl | rfl | rfl | rfl | rfl | rfl | rfl | rfl | rfl | rfl | rfl | rfl | rfl | rfl | rfl | rfl | rfl | rfl <;>
      simp [on_button, h0, ACT_2, ACT_3, ACT_4, ACT_5, THE_END]
  · rcases h with rfl | rfl | rfl <;>
      simp [on_button, h0, ACT_2, ACT_3, ACT_4, ACT_5, THE_END]
  · rcases h with rfl | rfl | rfl <;>
      simp [on_button, h0, ACT_2, ACT_3, ACT_4, ACT_5, THE_END]

/-- Only the three ending tokens can move `act` to `THE_END`. -/
theorem end_act_step (s : Session) (t : String) (h : (on_button s t).1.act = THE_END) :
    t ∈ endingTokens ∨ s.act = THE_END := by
  by_cases hk : t ∈ knownTokens
  · simp only [knownTokens, List.mem_cons, List.not_mem_nil, or_false] at hk
    rcases hk with rfl | rfl | rfl | rfl | rfl | rfl | rfl | rfl | rfl | rfl | rfl | rfl | rfl | rfl | rfl | rfl | rfl | rfl | rfl | rfl | rfl | rfl | rfl | rfl | rfl | rfl | rfl | rfl | rfl | rfl <;>
      simp_all [on_button, endingTokens, ACT_2, ACT_3, ACT_4, ACT_5, THE_END]
  · rw [on_button_unknown s t hk] at h
    exact Or.inr h

/-- C1 (amended): for every session and every dispatched action token
outside the dispatcher's closed token vocabulary, `on_button` leaves
the whole session (so in particular `flags`, `evidence` and `act`)
unchanged and emits exactly one fallback notice, and, being a total
function, never crashes.  (As the counterexample shows, a token that
is merely invalid for the current scene but belongs to the vocabulary
is processed, not rejected.) -/
theorem c1_unknown_token_is_noop (s : Session) (data : String) (h : data ∉ knownTokens) :
    on_button s data = (s, [Directive.editNotice fallback_notice]) :=
  on_button_unknown s data h

/-- C1 witness: a concrete stale token outside the vocabulary. -/
theorem c1_unknown_token_is_noop_witness :
    on_button (Session.fresh 1 2) "stale_click" =
      (Session.fresh 1 2, [Directive.editNotice fallback_notice]) :=
  c1_unknown_token_is_noop (Session.fresh 1 2) "stale_click" (by decide)

/-- C1 counterexample: after a playthrough reaching Act 5, the stale
act-1 button `a1_pkg` is not valid for the current scene, yet the
dispatcher mutates `act` (and emits no fallback notice) instead of
leaving the session unchanged. -/
theorem c1_counterexample :
    validForB (runTokens (Session.fresh 1 2)
        ["a1_pkg", "a2_home", "a3_call", "goto_flood", "flood_leak", "a4_break"]) "a1_pkg" = false ∧
    (on_button (runTokens (Session.fresh 1 2)
        ["a1_pkg", "a2_home", "a3_call", "goto_flood", "flood_leak", "a4_break"]) "a1_pkg").1.act ≠
      (runTokens (Session.fresh 1 2)
        ["a1_pkg", "a2_home", "a3_call", "goto_flood", "flood_leak", "a4_break"]).act ∧
    Directive.editNotice fallback_notice ∉
      (on_button (runTokens (Session.fresh 1 2)
        ["a1_pkg", "a2_home", "a3_call", "goto_flood", "flood_leak", "a4_break"]) "a1_pkg").2 := by
  decide

/-- C2 (amended): along every token sequence that follows the
transition graph (each token valid where it is dispatched), `act` is
monotonically non-decreasing; and over arbitrary dispatches, `act`
reaches `THE_END` from elsewhere only by one of the three ending
tokens.  (As the counterexample shows, a dispatched token that
disregards the graph can decrease `act` without any restart.) -/
theorem c2_act_monotone :
    (∀ (s : Session) (ts : List String), validTraceB s ts = true → s.act ≤ (runTokens s ts).act) ∧
    (∀ (s : Session) (t : String), (on_button s t).1.act = THE_END →
      t ∈ endingTokens ∨ s.act = THE_END) := by
  constructor
  · intro s ts
    induction ts generalizing s with
    | nil => intro _; exact Nat.le_refl _
    | cons t ts ih =>
      intro h
      rw [validTraceB, Bool.and_eq_true] at h
      calc s.act ≤ (on_button s t).1.act := act_monotone_step s t h.1
        _ ≤ (runTokens (on_button s t).1 ts).act := ih _ h.2
  · exact end_act_step

/-- C2 witness: a concrete valid trace, and a concrete dispatch
reaching `THE_END`. -/
theorem c2_act_monotone_witness :
    (Session.fresh 1 2).act ≤ (runTokens (Session.fresh 1 2) ["a1_pkg", "a2_home"]).act ∧
    ("end_veil" ∈ endingTokens ∨ (Session.fresh 1 2).act = THE_END) :=
  ⟨c2_act_monotone.1 (Session.fresh 1 2) ["a1_pkg", "a2_home"] (by decide),
   c2_act_monotone.2 (Session.fresh 1 2) "end_veil" (by decide)⟩

/-- C2 counterexample: dispatching the stale act-1 token `a1_pkg`
after a playthrough reaching Act 5 strictly decreases `act`, although
no restart command was issued. -/
theorem c2_counterexample :
    (runTokens (Session.fresh 1 2)
        ["a1_pkg", "a2_home", "a3_call", "goto_flood", "flood_leak", "a4_break", "a1_pkg"]).act
      < (runTokens (Session.fresh 1 2)
        ["a1_pkg", "a2_home", "a3_call", "goto_flood", "flood_leak", "a4_break"]).act := by
  decide

/-- C3: dispatching `end_save` always sets `act` to `THE_END`; when
the flags record `revived_lila` or `lila_hidden` as truthy, the render
plan contains the mercy-branch animation and the bonus final-video
directive; on an empty flag set it contains the reach-into-smoke
branch animation and no video directive at all. -/
theorem c3_end_save (s : Session) :
    (on_button s "end_save").1.act = THE_END ∧
    ((truthy (dictGet s.flags "revived_lila") || truthy (dictGet s.flags "lila_hidden")) = true →
      Directive.anim mercy_frames ∈ (on_button s "end_save").2 ∧
      final_video ∈ (on_button s "end_save").2) ∧
    (s.flags = [] →
      Directive.anim smoke_frames ∈ (on_button s "end_save").2 ∧
      ((on_button s "end_save").2.all fun d => !d.isVideo) = true) := by
  refine ⟨?_, ?_, ?_⟩
  · simp [on_button, THE_END]
  · intro hc
    simp [on_button, hc]
  · intro hf
    have hc : (truthy (dictGet s.flags "revived_lila") || truthy (dictGet s.flags "lila_hidden")) = false := by
      simp [hf, dictGet, truthy]
    simp [on_button, hc, final_video, Directive.isVideo]

/-- C3 witness: the mercy branch on a session with `revived_lila`
set, and the smoke branch on a fresh (empty-flag) session. -/
theorem c3_end_save_witness :
    (Directive.anim mercy_frames ∈
        (on_button { Session.fresh 1 2 with flags := [("revived_lila", .bool true)] } "end_save").2 ∧
      final_video ∈
        (on_button { Session.fresh 1 2 with flags := [("revived_lila", .bool true)] } "end_save").2) ∧
    (Directive.anim smoke_frames ∈ (on_button (Session.fresh 1 2) "end_save").2 ∧
      ((on_button (Session.fresh 1 2) "end_save").2.all fun d => !d.isVideo) = true) ∧
    (on_button (Session.fresh 1 2) "end_save").1.act = THE_END :=
  ⟨(c3_end_save { Session.fresh 1 2 with flags := [("revived_lila", .bool true)] }).2.1 (by decide),
   (c3_end_save (Session.fresh 1 2)).2.2 rfl,
   (c3_end_save (Session.fresh 1 2)).1⟩

/-- Consecutive display events: at least `beat` elapses, and an
in-place edit always targets the message that showed the previous
frame (so a fallback send becomes the next edit target). -/
def StepOk (beat : ℚ) (a b : DisplayEvent) : Prop :=
  a.time + beat ≤ b.time ∧ (b.isEdit = true → b.msgId = a.msgId)

/-- The edit loop displays exactly the remaining frames in order, its
first event `beat` after the loop starts (an edit targeting `cur`),
with every consecutive pair satisfying `StepOk`. -/
theorem animate_loop_spec (editOk : Nat → Bool) (beat : ℚ) :
    ∀ (fs : List String) (idx cur next : Nat) (t : ℚ),
      ((animate_loop editOk beat fs idx cur next t).map DisplayEvent.text = fs) ∧
      (∀ e ∈ (animate_loop editOk beat fs idx cur next t).head?,
        e.time = t + beat ∧ (e.isEdit = true → e.msgId = cur)) ∧
      List.Chain' (StepOk beat) (animate_loop editOk beat fs idx cur next t) := by
  intro fs
  induction fs with
  | nil =>
    intro idx cur next t
    simp [animate_loop]
  | cons f fs ih =>
    intro idx cur next t
    by_cases hok : editOk idx = true
    · simp only [animate_loop, hok, if_true]
      obtain ⟨ih1, ih2, ih3⟩ := ih (idx + 1) cur next (t + beat)
      refine ⟨by simp [ih1], ?_, ?_⟩
      · intro e he
        simp only [List.head?_cons, Option.mem_some_iff] at he
        subst he
        exact ⟨rfl, fun _ => rfl⟩
      · rw [List.chain'_cons']
        refine ⟨?_, ih3⟩
        intro b hb
        obtain ⟨hb1, hb2⟩ := ih2 b hb
        exact ⟨by rw [hb1], fun hE => by rw [hb2 hE]⟩
    · rw [Bool.not_eq_true] at hok
      simp only [animate_loop, hok, Bool.false_eq_true, if_false]
      obtain ⟨ih1, ih2, ih3⟩ := ih (idx + 1) next (next + 1) (t + beat)
      refine ⟨by simp [ih1], ?_, ?_⟩
      · intro e he
        simp only [List.head?_cons, Option.mem_some_iff] at he
        subst he
        exact ⟨rfl, by simp⟩
      · rw [List.chain'_cons']
        refine ⟨?_, ih3⟩
        intro b hb
        obtain ⟨hb1, hb2⟩ := ih2 b hb
        exact ⟨by rw [hb1], fun hE => by rw [hb2 hE]⟩

/-- C4: an empty frame list degrades to the single "..." message; a
non-empty list of N frames always produces exactly N displayed text
states, in exactly the input order, with at least `beat` between
consecutive displays and every in-place edit targeting the message
that showed the previous frame (a rejected edit's replacement send
becomes the next edit target) — for every transport accept/reject
oracle.  `animate_frames` is total, so no oracle makes it raise. -/
theorem c4_animate (editOk : Nat → Bool) (frames : List String) (beat : ℚ) :
    (animate_frames editOk [] beat = [{ msgId := 0, time := 0, text := "...", isEdit := false }]) ∧
    (frames ≠ [] →
      (animate_frames editOk frames beat).map DisplayEvent.text = frames ∧
      (animate_frames editOk frames beat).length = frames.length ∧
      List.Chain' (StepOk beat) (animate_frames editOk frames beat)) := by
  constructor
  · rfl
  · intro hne
    match frames with
    | [] => exact absurd rfl hne
    | f :: fs =>
      obtain ⟨h1, h2, h3⟩ := animate_loop_spec editOk beat fs 0 0 1 0
      refine ⟨by simp [animate_frames, h1], ?_, ?_⟩
      · have := congrArg List.length (by simp [animate_frames, h1] :
          (animate_frames editOk (f :: fs) beat).map DisplayEvent.text = f :: fs)
        simpa using this
      · rw [animate_frames, List.chain'_cons']
        refine ⟨?_, h3⟩
        intro b hb
        obtain ⟨hb1, hb2⟩ := h2 b hb
        exact ⟨by rw [hb1], fun hE => by rw [hb2 hE]⟩

/-- C4 witness: three frames against a transport that rejects every
edit. -/
theorem c4_animate_witness :
    (["one", "two", "three"] : List String) ≠ [] ∧
    ((animate_frames (fun _ => false) ["one", "two", "three"] 1).map DisplayEvent.text
        = ["one", "two", "three"] ∧
      (animate_frames (fun _ => false) ["one", "two", "three"] 1).length = 3 ∧
      List.Chain' (StepOk 1) (animate_frames (fun _ => false) ["one", "two", "three"] 1)) :=
  ⟨by decide, (c4_animate (fun _ => false) ["one", "two", "three"] 1).2 (by decide)⟩

/-- Dict assignment then lookup at the same key yields the assigned
value, whatever was there before. -/
theorem tableGet_tableSet_self (tbl : Table) (k : Int) (v : Session) :
    tableGet (tableSet tbl k v) k = some v := by
  induction tbl with
  | nil => simp [tableSet, tableGet]
  | cons kv rest ih =>
    obtain ⟨k', v'⟩ := kv
    by_cases hk : k' = k
    · simp [tableSet, hk, tableGet]
    · simp only [tableSet, if_neg hk]
      rw [tableGet, List.find?_cons]
      have : (decide ((k', v').1 = k)) = false := by simp [hk]
      rw [this]
      exact ih

/-- C5: for every chat and every prior table, `/start` installs a
fresh session for that chat — `act` is `ACT_1` and `flags`,
`evidence` and `inventory` are empty — unconditionally replacing any
existing entry (the lookup after the command sees only the fresh
session, never merged old state). -/
theorem c5_start_fresh (tbl : Table) (chatId userId : Int) (firstName : String) :
    tableGet (cmd_start tbl chatId userId firstName).1 chatId = some (Session.fresh chatId userId) ∧
    (Session.fresh chatId userId).act = ACT_1 ∧
    (Session.fresh chatId userId).flags = [] ∧
    (Session.fresh chatId userId).evidence = [] ∧
    (Session.fresh chatId userId).inventory = [] :=
  ⟨tableGet_tableSet_self tbl chatId (Session.fresh chatId userId), rfl, rfl, rfl, rfl⟩

/-- A nonempty needle with no whitespace survives `dropWhile
isWhitespace`: it cannot start inside the all-whitespace prefix. -/
theorem infix_dropWhile {α : Type} (p : α → Bool) (kw : List α) (hne : kw ≠ [])
    (hout : ∀ c ∈ kw, p c = false) :
    ∀ l : List α, kw <:+: l → kw <:+: l.dropWhile p := by
  intro l
  induction l with
  | nil =>
    intro h
    rw [List.infix_nil] at h
    exact absurd h hne
  | cons a l ih =>
    intro h
    by_cases ha : p a = true
    · rw [List.dropWhile_cons, if_pos ha]
      rcases List.infix_cons_iff.mp h with hpre | hinf
      · rcases List.prefix_cons_iff.mp hpre with rfl | ⟨t, rfl, _⟩
        · exact absurd rfl hne
        · have := hout a (by simp)
          rw [this] at ha
          cases ha
      · exact ih hinf
    · rw [List.dropWhile_cons, if_neg ha]
      exact h

/-- A nonempty whitespace-free needle survives Python `strip()`. -/
theorem infix_pyStrip (kw l : List Char) (hne : kw ≠ [])
    (hout : ∀ c ∈ kw, c.isWhitespace = false) (h : kw <:+: l) :
    kw <:+: pyStrip l := by
  unfold pyStrip
  have h1 := infix_dropWhile Char.isWhitespace kw hne hout l h
  have h2 : kw.reverse <:+: (List.dropWhile Char.isWhitespace l).reverse := h1.reverse
  have h3 := infix_dropWhile Char.isWhitespace kw.reverse (by simpa using hne)
      (fun c hc => hout c (List.mem_reverse.mp hc)) _ h2
  have h4 := h3.reverse
  simpa using h4

/-- A lowercase whitespace-free keyword occurring in the raw
utterance also occurs in the text `npc_reply` classifies (stripped
then lowercased). -/
theorem keyword_in_npc_low (kw : List Char) (u : String) (hne : kw ≠ [])
    (hws : ∀ c ∈ kw, c.isWhitespace = false) (hfix : kw.map Char.toLower = kw)
    (h : kw <:+: u.data) : kw <:+: npc_low u := by
  have h1 := infix_pyStrip kw u.data hne hws h
  have h2 := h1.map Char.toLower
  rw [hfix] at h2
  exact h2

/-- Every bucket holds exactly three lines. -/
theorem npc_bucket_length (u : String) : (npc_bucket u).length = 3 := by
  unfold npc_bucket
  split_ifs <;> rfl

/-- The template reply is always drawn from the selected bucket. -/
theorem npc_reply_mem (choice : Nat) (u : String) : npc_reply choice u ∈ npc_bucket u := by
  unfold npc_reply
  have hlt : choice % (npc_bucket u).length < (npc_bucket u).length := by
    rw [npc_bucket_length]
    omega
  rw [List.getD_eq_getElem _ _ hlt]
  exact List.getElem_mem _

/-- C7 (amended): an utterance containing "why" always draws from the
three mystery-bucket lines; an utterance containing "help" draws from
the three comfort-bucket lines provided no interrogative keyword is
present in the classified (stripped, lowercased) text; an utterance
containing neither keyword class draws from the three
atmospheric-bucket lines.  (As the counterexample shows, "help" alone
does not force the comfort bucket: the interrogative class is tested
first.) -/
theorem c7_template_buckets (u : String) (choice : Nat) :
    ("why".data <:+: u.data → npc_reply choice u ∈ mystery_lines) ∧
    ("help".data <:+: u.data →
      (interrogative_words.any fun w => containsSub (npc_low u) w.data) = false →
      npc_reply choice u ∈ comfort_lines) ∧
    ((interrogative_words.any fun w => containsSub (npc_low u) w.data) = false →
      (distress_words.any fun w => containsSub (npc_low u) w.data) = false →
      npc_reply choice u ∈ atmos_lines) := by
  refine ⟨?_, ?_, ?_⟩
  · intro h
    have hlow : "why".data <:+: npc_low u :=
      keyword_in_npc_low _ u (by decide) (by decide) (by decide) h
    have hany : (interrogative_words.any fun w => containsSub (npc_low u) w.data) = true := by
      rw [List.any_eq_true]
      exact ⟨"why", by decide, by simpa [containsSub] using hlow⟩
    have hb : npc_bucket u = mystery_lines := by
      unfold npc_bucket
      rw [if_pos hany]
    have := npc_reply_mem choice u
    rwa [hb] at this
  · intro h hno
    have hlow : "help".data <:+: npc_low u :=
      keyword_in_npc_low _ u (by decide) (by decide) (by decide) h
    have hany : (distress_words.any fun w => containsSub (npc_low u) w.data) = true := by
      rw [List.any_eq_true]
      exact ⟨"help", by decide, by simpa [containsSub] using hlow⟩
    have hb : npc_bucket u = comfort_lines := by
      unfold npc_bucket
      rw [if_neg (by simp [hno]), if_pos hany]
    have := npc_reply_mem choice u
    rwa [hb] at this
  · intro h1 h2
    have hb : npc_bucket u = atmos_lines := by
      unfold npc_bucket
      rw [if_neg (by simp [h1]), if_neg (by simp [h2])]
    have := npc_reply_mem choice u
    rwa [hb] at this

/-- C7 witness: one utterance per bucket. -/
theorem c7_template_buckets_witness :
    npc_reply 0 "why is it raining" ∈ mystery_lines ∧
    npc_reply 1 "help me" ∈ comfort_lines ∧
    npc_reply 2 "hello town" ∈ atmos_lines :=
  ⟨(c7_template_buckets "why is it raining" 0).1 (by decide),
   (c7_template_buckets "help me" 1).2.1 (by decide) (by decide),
   (c7_template_buckets "hello town" 2).2.2 (by decide) (by decide)⟩

/-- C7 counterexample: an utterance containing the distress keyword
"help" whose reply is not a comfort-bucket line, because it also
contains interrogative keywords and those are classified first. -/
theorem c7_counterexample :
    ("help".data <:+: "why won't you help".data) ∧
    npc_reply 0 "why won't you help" ∉ comfort_lines := by
  decide

/-- C9: the classifier works by case-insensitive substring containment
on the stripped, lowercased utterance and tests the interrogative
class first: whenever any interrogative keyword occurs there — also
as a mere substring of a longer word, and regardless of any distress
keyword — the bucket is the mystery pool and the reply is never a
comfort-bucket line. -/
theorem c9_interrogative_precedence (u : String) (choice : Nat)
    (h : ∃ w ∈ interrogative_words, w.data <:+: npc_low u) :
    npc_bucket u = mystery_lines ∧
    npc_reply choice u ∈ mystery_lines ∧
    npc_reply choice u ∉ comfort_lines := by
  obtain ⟨w, hw, hinf⟩ := h
  have hany : (interrogative_words.any fun w => containsSub (npc_low u) w.data) = true := by
    rw [List.any_eq_true]
    exact ⟨w, hw, by simpa [containsSub] using hinf⟩
  have hb : npc_bucket u = mystery_lines := by
    unfold npc_bucket
    rw [if_pos hany]
  have hm := npc_reply_mem choice u
  rw [hb] at hm
  refine ⟨hb, hm, ?_⟩
  have : ∀ r ∈ mystery_lines, r ∉ comfort_lines := by decide
  exact this _ hm

/-- C9 witness: an utterance with both keyword classes, and one
containing "where" only inside "nowhere". -/
theorem c9_interrogative_precedence_witness :
    (npc_bucket "why won't you help me" = mystery_lines ∧
      npc_reply 0 "why won't you help me" ∈ mystery_lines ∧
      npc_reply 0 "why won't you help me" ∉ comfort_lines) ∧
    (npc_bucket "I am nowhere" = mystery_lines ∧
      npc_reply 1 "I am nowhere" ∈ mystery_lines ∧
      npc_reply 1 "I am nowhere" ∉ comfort_lines) :=
  ⟨c9_interrogative_precedence "why won't you help me" 0 ⟨"why", by decide, by decide⟩,
   c9_interrogative_precedence "I am nowhere" 1 ⟨"where", by decide, by decide⟩⟩

/-- Appending one digit multiplies the value by ten. -/
theorem natFromDigits_append_single (ds : List Nat) (d : Nat) :
    natFromDigits (ds ++ [d]) = natFromDigits ds * 10 + d := by
  simp [natFromDigits, List.foldl_append]

/-- With enough fuel, `natDigitsAux` produces a nonempty base-10
digit string whose value is the input. -/
theorem natDigitsAux_spec : ∀ (fuel n : Nat), n ≤ fuel →
    natFromDigits (natDigitsAux fuel n) = n ∧
    (∀ d ∈ natDigitsAux fuel n, d < 10) ∧ natDigitsAux fuel n ≠ [] := by
  intro fuel
  induction fuel with
  | zero =>
    intro n hn
    have : n = 0 := by omega
    subst this
    refine ⟨rfl, ?_, by simp [natDigitsAux]⟩
    intro d hd
    simp [natDigitsAux] at hd
    omega
  | succ fuel ih =>
    intro n hn
    by_cases h10 : n < 10
    · rw [natDigitsAux, if_pos h10]
      refine ⟨by simp [natFromDigits], ?_, by simp⟩
      intro d hd
      simp at hd
      omega
    · rw [natDigitsAux, if_neg h10]
      obtain ⟨ih1, ih2, _⟩ := ih (n / 10) (by omega)
      refine ⟨?_, ?_, by simp⟩
      · rw [natFromDigits_append_single, ih1]
        omega
      · intro d hd
        rcases List.mem_append.mp hd with hd | hd
        · exact ih2 d hd
        · simp at hd
          omega

/-- Digit characters decode to the digit they encode. -/
theorem charDigit_digitChar (d : Nat) (h : d < 10) : charDigit (digitChar d) = some d := by
  interval_cases d <;> decide

/-- No digit character is the minus sign. -/
theorem digitChar_ne_dash (d : Nat) : digitChar d ≠ '-' := by
  unfold digitChar
  split <;> decide

/-- Decimal parsing over an encoded digit string folds to the
digit-list value, from any accumulator. -/
theorem parse_fold (ds : List Nat) (hds : ∀ d ∈ ds, d < 10) : ∀ a : Nat,
    List.foldl parseStep (some a) (ds.map digitChar) =
      some (List.foldl (fun x d => x * 10 + d) a ds) := by
  induction ds with
  | nil => intro a; rfl
  | cons d ds ih =>
    intro a
    have hd : charDigit (digitChar d) = some d := charDigit_digitChar d (hds d (by simp))
    simp only [List.map_cons, List.foldl_cons]
    rw [show parseStep (some a) (digitChar d) = some (a * 10 + d) by simp [parseStep, hd]]
    exact ih (fun x hx => hds x (by simp [hx])) (a * 10 + d)

/-- Parsing the digit string of `n` gives back `n`. -/
theorem parseNat_digits (n : Nat) :
    parseNat ((natDigits n).map digitChar) = some n := by
  obtain ⟨h1, h2, h3⟩ := natDigitsAux_spec n n (Nat.le_refl n)
  have hne : (natDigits n).map digitChar ≠ [] := by
    intro h
    exact h3 (List.map_eq_nil_iff.mp h)
  rw [parseNat, if_neg (by simpa using hne)]
  rw [parse_fold (natDigits n) h2 0]
  exact congrArg some h1

/-- The store's key codec round-trips: `int(str(i)) = i`. -/
theorem strToInt_intToStr (i : Int) : strToInt (intToStr i) = some i := by
  by_cases hneg : i < 0
  · rw [intToStr, if_pos hneg]
    rw [show strToInt ⟨'-' :: (natDigits i.natAbs).map digitChar⟩ =
        (parseNat ((natDigits i.natAbs).map digitChar)).map (fun n => -(n : Int)) from rfl]
    rw [parseNat_digits]
    exact congrArg some (by simp only []; omega)
  · rw [intToStr, if_neg hneg]
    obtain ⟨h1, h2, h3⟩ := natDigitsAux_spec i.toNat i.toNat (Nat.le_refl _)
    rcases hd : natDigits i.toNat with _ | ⟨d, ds⟩
    · exact absurd hd h3
    · simp only [natToStr, hd, List.map_cons]
      rw [show strToInt ⟨digitChar d :: ds.map digitChar⟩ =
          if digitChar d = '-' then (parseNat (ds.map digitChar)).map (fun n => -(n : Int))
          else (parseNat (digitChar d :: ds.map digitChar)).map (fun n => (n : Int)) from rfl]
      rw [if_neg (digitChar_ne_dash d)]
      rw [show digitChar d :: ds.map digitChar = (d :: ds).map digitChar from rfl]
      rw [← hd, parseNat_digits]
      exact congrArg some (by simp only []; omega)

/-- A serialized session deserializes to itself. -/
theorem from_dict_to_dict (s : Session) : Session.from_dict (Session.to_dict s) = some s := rfl

/-- Assigning a fresh key appends the binding at the end. -/
theorem tableSet_append (acc : Table) (k : Int) (v : Session)
    (h : k ∉ acc.map Prod.fst) : tableSet acc k v = acc ++ [(k, v)] := by
  induction acc with
  | nil => rfl
  | cons kv rest ih =>
    obtain ⟨k', v'⟩ := kv
    simp only [List.map_cons, List.mem_cons, not_or] at h
    rw [tableSet, if_neg (fun hk => h.1 hk.symm)]
    rw [ih h.2]
    rfl

/-- Loading a saved table (distinct keys, as a Python dict guarantees)
appends exactly the saved entries, in order. -/
theorem load_entries_save (tbl : Table) : ∀ acc : Table,
    (tbl.map Prod.fst).Nodup →
    (∀ k ∈ acc.map Prod.fst, k ∉ tbl.map Prod.fst) →
    load_entries (save_sessions tbl) acc = acc ++ tbl := by
  induction tbl with
  | nil =>
    intro acc _ _
    simp [save_sessions, load_entries]
  | cons kv rest ih =>
    intro acc hnd hdisj
    obtain ⟨k, v⟩ := kv
    simp only [save_sessions, List.map_cons] at *
    rw [load_entries, strToInt_intToStr k, from_dict_to_dict v]
    have hk_acc : k ∉ acc.map Prod.fst := fun hk => hdisj k hk (by simp)
    show load_entries (List.map (fun kv => (intToStr kv.1, kv.2.to_dict)) rest) (tableSet acc k v)
        = acc ++ (k, v) :: rest
    rw [tableSet_append acc k v hk_acc]
    rw [List.nodup_cons] at hnd
    have hstep := ih (acc ++ [(k, v)]) hnd.2 ?hd
    case hd =>
      intro k' hk'
      simp only [List.map_append, List.mem_append, List.map_cons, List.map_nil,
        List.mem_singleton] at hk'
      rcases hk' with hk' | hk'
      · intro hmem
        exact hdisj k' hk' (by simp [hmem])
      · rw [hk']
        exact hnd.1
    rw [hstep]
    simp

/-- C6: saving the session table and loading it back reproduces, for
every chat id with a session, an equivalent session — equal `act`,
pointwise-equal `flags` (so equal as a set of key/value pairs,
independent of key order), and equal `evidence` as an ordered
sequence.  The distinct-keys hypothesis states the Python-dict
invariant of the in-memory table. -/
theorem c6_save_load_roundtrip (tblPrev tbl : Table) (cid : Int) (s : Session)
    (hkeys : (tbl.map Prod.fst).Nodup)
    (hs : tableGet tbl cid = some s) :
    ∃ s2, tableGet (load_sessions (.parsed (save_sessions tbl)) tblPrev) cid = some s2 ∧
      s2.act = s.act ∧ (∀ k, dictGet s2.flags k = dictGet s.flags k) ∧ s2.evidence = s.evidence := by
  refine ⟨s, ?_, rfl, fun _ => rfl, rfl⟩
  show tableGet (load_entries (save_sessions tbl) []) cid = some s
  rw [load_entries_save tbl [] hkeys (by simp)]
  simpa using hs

/-- A sample populated session for the C6 witness: a negative
(group-style) chat id, duplicated evidence, mixed-type flags. -/
def roundtripSample : Session :=
  { chat_id := -7, owner_id := 3, act := ACT_3, step := 0, inventory := [],
    evidence := ["lila_alive", "lila_alive"],
    flags := [("revived_lila", .bool true), ("route", .str "break")],
    pinned_msg_id := none }

/-- C6 witness: one concrete save/load round trip. -/
theorem c6_save_load_roundtrip_witness :
    ∃ s2, tableGet (load_sessions (.parsed (save_sessions [(-7, roundtripSample)]))
        [(1, Session.fresh 1 1)]) (-7) = some s2 ∧
      s2.act = roundtripSample.act ∧
      (∀ k, dictGet s2.flags k = dictGet roundtripSample.flags k) ∧
      s2.evidence = roundtripSample.evidence :=
  c6_save_load_roundtrip [(1, Session.fresh 1 1)] [(-7, roundtripSample)] (-7) roundtripSample
    (by decide) (by decide)

/-- C8 (amended): for a chat with an active session, `/talk` with
fewer than two arguments always replies with the usage string — the
branch returns before either NPC strategy could be consulted.  (As
the counterexample shows, without an active session the reply is the
"/start first." notice instead.) -/
theorem c8_talk_usage (s : Session) (args : List String) (choice : Nat)
    (h : args.length < 2) :
    cmd_talk (some s) args choice = .usage := by
  simp [cmd_talk, h]

/-- C8 witness: one argument only. -/
theorem c8_talk_usage_witness : cmd_talk (some (Session.fresh 1 2)) ["archivist"] 0 = .usage :=
  c8_talk_usage (Session.fresh 1 2) ["archivist"] 0 (by decide)

/-- C8 counterexample: a `/talk` invocation with fewer than two
arguments whose reply is not the usage string, because no session
exists for the chat. -/
theorem c8_counterexample :
    ([] : List String).length < 2 ∧ cmd_talk none [] 0 ≠ .usage := by
  decide

/-- C10: when the store file is missing, or its contents fail to read
or parse as JSON, `load_sessions` leaves the in-memory table
completely unchanged — the table is cleared and repopulated only in
the successfully-parsed branch — and, as a total function, the load
never raises to its caller. -/
theorem c10_load_failure_keeps_table (fs : StoreState) (tbl : Table)
    (h : fs = .missing ∨ fs = .unreadable) :
    load_sessions fs tbl = tbl := by
  rcases h with rfl | rfl <;> rfl

/-- C10 witness: both failure modes on a populated table. -/
theorem c10_load_failure_keeps_table_witness :
    load_sessions .missing [(1, Session.fresh 1 2)] = [(1, Session.fresh 1 2)] ∧
    load_sessions .unreadable [(1, Session.fresh 1 2)] = [(1, Session.fresh 1 2)] :=
  ⟨c10_load_failure_keeps_table .missing _ (Or.inl rfl),
   c10_load_failure_keeps_table .unreadable _ (Or.inr rfl)⟩

end AshenVeil
